import Mathlib

/-!
Verification development for the on-prem document thumbnail service
(`src/app.py`).  The Python service is shallowly embedded: pure helpers
become Lean functions, the storage directories and the JSON metadata file
become an explicit `State`, the handlers become functions that return a
trace of primitive filesystem operations together with their HTTP result,
and the external PDF engine (PyMuPDF) and the external LibreOffice process
are abstracted as parameters.  The filesystem model is error-free:
`os.unlink`/`os.rmdir` on an existing regular file / empty directory
succeed, and every directory entry is a regular file.
-/

namespace DocThumb

/-- Byte strings are modelled as lists of naturals. -/
abbrev Bytes := List Nat

deriving instance DecidableEq for Except

/-- The `detail` payloads of the `HTTPException`s raised in `app.py`,
one constructor per distinct raise site / error taxonomy entry. -/
inductive ErrDetail where
  | emptyUpload
  | duplicateFilename (filename existingId existingUploadedAt : String)
  | tooLarge
  | unsupported (filename : String) (supported : List String)
  | invalidPdf
  | zeroPages
  | timeout
  | sofficeFailed (stderr : String)
  | noPdfOutput (stderr : String)
  | notFound
deriving DecidableEq, Repr

/-- Model of `fastapi.HTTPException`: a status code plus a detail payload. -/
structure HTTPException where
  status : Nat
  detail : ErrDetail
deriving DecidableEq, Repr

/-- An opened PDF document as exposed by the rendering engine:
`page_count` is `pages.length`, `load_page i` is `pages[i]`; page contents
are abstract byte strings. -/
structure FitzDoc where
  pages : List Bytes
deriving DecidableEq, Repr

/-- Abstract PDF engine (PyMuPDF / `fitz`): `parse` is
`fitz.open(stream=..., filetype="pdf")` (`none` when it raises), and
`renderPng page a b` is `page.get_pixmap(matrix=fitz.Matrix(a, b)).tobytes("png")`. -/
structure PdfEngine where
  parse : Bytes → Option FitzDoc
  renderPng : Bytes → Nat → Nat → Bytes

/-- Model of `pdf_first_page_to_png` (app.py:150-171): open the bytes as a PDF
(400 "not a valid PDF" on failure), reject zero-page documents
(400 "PDF has 0 pages"), otherwise render page 0 with `Matrix(2, 2)`. -/
def pdf_first_page_to_png (E : PdfEngine) (pdf_bytes : Bytes) :
    Except HTTPException Bytes :=
  match E.parse pdf_bytes with
  | none => .error ⟨400, .invalidPdf⟩
  | some doc =>
    match doc.pages with
    | [] => .error ⟨400, .zeroPages⟩
    | page :: _ => .ok (E.renderPng page 2 2)

/-- Python `str.lower()` (ASCII case folding suffices for the filename
suffixes the service inspects). -/
def strLower (s : String) : String := String.mk (s.data.map Char.toLower)

/-- Python `str.endswith(suffix)`: the last `suffix.length` characters
equal `suffix`. -/
def strEndsWith (s suffix : String) : Bool :=
  decide (s.data.reverse.take suffix.data.length = suffix.data.reverse)

/-- Python `str.startswith(pre)`: the first `pre.length` characters equal
`pre`. -/
def strStartsWith (s pre : String) : Bool :=
  decide (s.data.take pre.data.length = pre.data)

/-- Index of the last `'.'` in a character list, if any. -/
def lastDotIdx (cs : List Char) : Option Nat :=
  (List.range cs.length).foldl
    (fun acc j => if cs.getD j ' ' = '.' then some j else acc) none

/-- Model of `os.path.splitext` on a path without directory separators: split at
the last dot, except when every character before that dot is itself a dot
(so dotfiles such as `".cshrc"` keep an empty extension). -/
def splitext (p : String) : String × String :=
  let cs := p.data
  match lastDotIdx cs with
  | none => (p, "")
  | some i =>
    if (cs.take i).all (fun c => c = '.') then (p, "")
    else (String.mk (cs.take i), String.mk (cs.drop i))

/-- A file in the LibreOffice output directory: name, `os.path.getmtime`
value, and contents. -/
structure OutFile where
  name : String
  mtime : Nat
  content : Bytes
deriving DecidableEq, Repr

/-- Outcome of the `subprocess.run` call on the LibreOffice CLI:
wall-clock timeout, non-zero exit (with its stderr), or success with the
stderr text and the files it left in the output directory. -/
inductive SofficeOutcome where
  | timeout
  | exitError (stderr : String)
  | success (stderr : String) (outputs : List OutFile)
deriving DecidableEq, Repr

/-- Environment of one `office_first_page_to_png` call: the basename the
`tempfile` module picked for the temp input file (suffix included) and
what the external process did. -/
structure OfficeEnv where
  tmpInBaseName : String
  outcome : SofficeOutcome
deriving DecidableEq, Repr

/-- Temp-filesystem footprint of one office conversion: whether the temp
input file exists, and the temp output directory (`none` when absent,
`some files` when present with those entries). -/
structure TempFS where
  inFile : Bool
  outDir : Option (List OutFile)
deriving DecidableEq, Repr

/-- Python `max(xs, key=key)`: the first element of maximal key
(`none` on the empty list, where Python raises `ValueError`). -/
def pyMaxBy {α : Type} (key : α → Nat) : List α → Option α
  | [] => none
  | x :: xs => some (xs.foldl (fun best y => if key best < key y then y else best) x)

/-- Model of the `finally` block of `office_first_page_to_png` (app.py:253-270):
unlink the temp input file if it exists; if the output directory exists,
unlink every file in it and then `rmdir` it.  In the error-free filesystem
model every entry is a regular file, so all unlinks succeed and the
directory is empty when `rmdir` runs. -/
def office_cleanup (fs : TempFS) : TempFS :=
  let fs1 := if fs.inFile then { fs with inFile := false } else fs
  match fs1.outDir with
  | some _files => { fs1 with outDir := none }
  | none => fs1

/-- The expected PDF path: basename of the temp input file without its
extension, plus ".pdf" (app.py:211-212). -/
def office_guessed_name (env : OfficeEnv) : String :=
  (splitext env.tmpInBaseName).1 ++ ".pdf"

/-- The fallback candidate list: entries of the output directory whose
lower-cased name ends with ".pdf" (app.py:215-219). -/
def office_pdf_candidates (outputs : List OutFile) : List OutFile :=
  outputs.filter (fun f => strEndsWith (strLower f.name) ".pdf")

/-- Model of `office_first_page_to_png` (app.py:178-270): write the upload to a
temp file, make a temp output directory, run the LibreOffice CLI
(timeout → 500 "timed out", non-zero exit → 500 "failed to convert"),
locate the produced PDF (expected path first, else most recently modified
`.pdf` candidate, else 500 "no PDF was found"), render its first page,
and clean up the temp resources on every exit path.  Returns the result
together with the final temp-filesystem footprint. -/
def office_first_page_to_png (E : PdfEngine) (env : OfficeEnv)
    (_file_bytes : Bytes) (_original_extension : String) :
    Except HTTPException Bytes × TempFS :=
  let fs1 : TempFS := { inFile := true, outDir := some [] }
  match env.outcome with
  | .timeout =>
      (.error ⟨500, .timeout⟩, office_cleanup fs1)
  | .exitError stderr =>
      (.error ⟨500, .sofficeFailed stderr⟩, office_cleanup fs1)
  | .success stderr outputs =>
      let fs2 : TempFS := { fs1 with outDir := some outputs }
      match outputs.find? (fun f => f.name = office_guessed_name env) with
      | some f => (pdf_first_page_to_png E f.content, office_cleanup fs2)
      | none =>
        match pyMaxBy (fun f => f.mtime) (office_pdf_candidates outputs) with
        | none => (.error ⟨500, .noPdfOutput stderr⟩, office_cleanup fs2)
        | some f => (pdf_first_page_to_png E f.content, office_cleanup fs2)

/-- The supported-formats list of the unsupported-type error payload
(app.py:296). -/
def supported_formats : List String := ["PDF", "DOC", "DOCX", "PPT", "PPTX"]

/-- Model of `generate_thumbnail_png_bytes` (app.py:277-299): route on the
lower-cased filename suffix, in order `.pdf`, `.docx`, `.doc`, `.pptx`,
`.ppt`; anything else is a 400 with the supported-format list. -/
def generate_thumbnail_png_bytes (E : PdfEngine) (env : OfficeEnv)
    (file_bytes : Bytes) (filename : String) : Except HTTPException Bytes :=
  let lower := strLower filename
  if strEndsWith lower ".pdf" then pdf_first_page_to_png E file_bytes
  else if strEndsWith lower ".docx" then
    (office_first_page_to_png E env file_bytes ".docx").1
  else if strEndsWith lower ".doc" then
    (office_first_page_to_png E env file_bytes ".doc").1
  else if strEndsWith lower ".pptx" then
    (office_first_page_to_png E env file_bytes ".pptx").1
  else if strEndsWith lower ".ppt" then
    (office_first_page_to_png E env file_bytes ".ppt").1
  else .error ⟨400, .unsupported filename supported_formats⟩

/-- Model of one entry of `metadata.json`: the value stored under a `doc_id`
(app.py:124-128). -/
structure Record where
  filename : String
  extension : String
  uploaded_at : String
deriving DecidableEq, Repr

/-- A stored blob: name and contents. -/
abbrev Blob := String × Bytes

/-- Persistent state of the service: the documents directory, the
thumbnails directory, and the metadata mapping (a Python dict, i.e. an
insertion-ordered association list with unique keys). -/
structure State where
  documents : List Blob
  thumbnails : List Blob
  metadata : List (String × Record)
deriving DecidableEq, Repr

/-- Semantics of `open(path, "wb")` + write: replace the contents if the name exists,
otherwise append a new entry. -/
def fsWrite (fs : List Blob) (n : String) (c : Bytes) : List Blob :=
  if fs.any (fun p => p.1 = n) then
    fs.map (fun p => if p.1 = n then (n, c) else p)
  else fs ++ [(n, c)]

/-- Python dict assignment `m[k] = v`: update in place if present,
otherwise append. -/
def dictSet (m : List (String × Record)) (k : String) (v : Record) :
    List (String × Record) :=
  if m.any (fun p => p.1 = k) then
    m.map (fun p => if p.1 = k then (k, v) else p)
  else m ++ [(k, v)]

/-- Primitive storage operations performed by the handlers, in program
order: writes/unlinks in the two blob directories and mutations of the
metadata mapping (`add_file_metadata` / `remove_file_metadata`). -/
inductive FsOp where
  | writeDoc (name : String) (content : Bytes)
  | unlinkDoc (name : String)
  | writeThumb (name : String) (content : Bytes)
  | unlinkThumb (name : String)
  | metaAdd (id : String) (r : Record)
  | metaRemove (id : String)
deriving DecidableEq, Repr

/-- Effect of one storage operation on the state.  Unlinking a missing
name is a no-op, matching the guarded `os.path.exists`/`in metadata`
checks and the best-effort deletes in the source. -/
def applyOp (st : State) : FsOp → State
  | .writeDoc n c => { st with documents := fsWrite st.documents n c }
  | .unlinkDoc n => { st with documents := st.documents.filter (fun p => p.1 ≠ n) }
  | .writeThumb n c => { st with thumbnails := fsWrite st.thumbnails n c }
  | .unlinkThumb n => { st with thumbnails := st.thumbnails.filter (fun p => p.1 ≠ n) }
  | .metaAdd id r => { st with metadata := dictSet st.metadata id r }
  | .metaRemove id => { st with metadata := st.metadata.filter (fun p => p.1 ≠ id) }

/-- Run a trace of storage operations from left to right. -/
def applyOps (st : State) (ops : List FsOp) : State := ops.foldl applyOp st

/-- Model of `check_duplicate_filename` (app.py:131-137): first metadata entry
whose stored filename equals the incoming one, in dict iteration order. -/
def check_duplicate_filename (metadata : List (String × Record))
    (filename : String) : Option (String × Record) :=
  metadata.find? (fun p => p.2.filename = filename)

/-- Model of the validation phase of `upload_document` (app.py:337-361): reject an
empty upload (400), then a duplicate filename without `replace_existing`
(409, with the existing id and timestamp), then an oversized payload
(413).  On success, returns the duplicate lookup result for later use. -/
def upload_checks (st : State) (content : Bytes) (filename : String)
    (replace_existing : Bool) (maxFileSize : Nat) :
    Except HTTPException (Option (String × Record)) :=
  if content.isEmpty then .error ⟨400, .emptyUpload⟩
  else
    match check_duplicate_filename st.metadata filename with
    | some (eid, einfo) =>
      if !replace_existing then
        .error ⟨409, .duplicateFilename filename eid einfo.uploaded_at⟩
      else if content.length > maxFileSize then .error ⟨413, .tooLarge⟩
      else .ok (some (eid, einfo))
    | none =>
      if content.length > maxFileSize then .error ⟨413, .tooLarge⟩
      else .ok none

/-- JSON payload of a successful upload (app.py:413-420). -/
structure UploadResp where
  doc_id : String
  original_filename : String
  uploaded_at : String
  original_file_url : String
  thumbnail_url : String
  duplicate_replaced : Bool
deriving DecidableEq, Repr

/-- Model of `upload_document` (app.py:306-423).  `doc_id` stands for the fresh
`uuid4().hex`, `uploaded_at` for the current UTC timestamp, and `gen` for
`generate_thumbnail_png_bytes` (its failures are `HTTPException`s, the
only exception class the handler catches).  After the checks pass:
delete the replaced record's blobs and metadata entry when
`replace_existing` hit a duplicate; write the original under
`doc_id ++ ext`; on a thumbnail-generation failure unlink that original
and re-raise the same exception; otherwise write the thumbnail, add the
metadata record, and answer with the URLs.  Returns the storage trace in
program order together with the HTTP result. -/
def upload_document (st : State) (content : Bytes) (filename : String)
    (replace_existing : Bool) (doc_id : String) (uploaded_at : String)
    (maxFileSize : Nat) (gen : Bytes → String → Except HTTPException Bytes) :
    List FsOp × Except HTTPException UploadResp :=
  match upload_checks st content filename replace_existing maxFileSize with
  | .error e => ([], .error e)
  | .ok dup =>
    let replaceOps : List FsOp :=
      match dup with
      | some (eid, einfo) =>
        if replace_existing then
          [FsOp.unlinkDoc (eid ++ einfo.extension),
           FsOp.unlinkThumb (eid ++ ".png"),
           FsOp.metaRemove eid]
        else []
      | none => []
    let duplicate_replaced : Bool :=
      match dup with
      | some _ => replace_existing
      | none => false
    let ext := (splitext filename).2
    let docName := doc_id ++ ext
    let thumbName := doc_id ++ ".png"
    match gen content filename with
    | .error e =>
      (replaceOps ++ [FsOp.writeDoc docName content, FsOp.unlinkDoc docName],
       .error e)
    | .ok png =>
      (replaceOps ++ [FsOp.writeDoc docName content,
                      FsOp.writeThumb thumbName png,
                      FsOp.metaAdd doc_id ⟨filename, ext, uploaded_at⟩],
       .ok ⟨doc_id, filename, uploaded_at,
            "/documents/" ++ docName, "/thumbnails/" ++ thumbName,
            duplicate_replaced⟩)

/-- Model of `delete_document` (app.py:482-519): remove every file in the
documents directory whose name starts with `doc_id`, then the thumbnail
`doc_id ++ ".png"` if present; 404 when nothing was removed, otherwise
drop the metadata entry and answer with the removed names. -/
def delete_document (st : State) (doc_id : String) :
    List FsOp × Except HTTPException (List String) :=
  let doc_hits := (st.documents.filter (fun p => strStartsWith p.1 doc_id)).map
    (fun p => p.1)
  let thumbName := doc_id ++ ".png"
  let thumb_hit := st.thumbnails.any (fun p => p.1 = thumbName)
  let removed_paths := doc_hits ++ (if thumb_hit then [thumbName] else [])
  if removed_paths.isEmpty then
    ([], .error ⟨404, .notFound⟩)
  else
    (doc_hits.map FsOp.unlinkDoc ++
       (if thumb_hit then [FsOp.unlinkThumb thumbName] else []) ++
       [FsOp.metaRemove doc_id],
     .ok removed_paths)

/-- A concrete engine for witnesses: `[1]` parses to a two-page document,
`[2]` to a zero-page document, anything else fails to parse; rendering
appends the matrix entries to the page bytes. -/
def pdfEngine0 : PdfEngine where
  parse := fun b =>
    if b = [1] then some ⟨[[7], [8]]⟩
    else if b = [2] then some ⟨[]⟩
    else none
  renderPng := fun p a b => p ++ [a, b]

/-- Concrete output directories for the C3 witness. -/
def officeEnv1 : OfficeEnv :=
  ⟨"tmpQ.docx", .success "e1" [⟨"tmpQ.pdf", 0, [1]⟩, ⟨"z.pdf", 7, [2]⟩]⟩

/-- Output directory without any PDF, for the C3 witness. -/
def officeEnv2 : OfficeEnv :=
  ⟨"tmpQ.docx", .success "e2" [⟨"notes.txt", 3, [9]⟩]⟩

/-- Concrete one-record state for the upload witnesses. -/
def stateOne : State :=
  ⟨[("d1.pdf", [9])], [("d1.png", [4])], [("d1", ⟨"a.pdf", ".pdf", "t1"⟩)]⟩

/-- Whether an `Except` result is a success, kept local. -/
def exceptIsOk {ε α : Type} : Except ε α → Bool
  | .ok _ => true
  | .error _ => false

/-- Recognizer for the metadata-insertion operation. -/
def isMetaAdd : FsOp → Bool
  | .metaAdd _ _ => true
  | _ => false

/-! ## Helper lemmas -/

theorem office_cleanup_clears (fs : TempFS) :
    (office_cleanup fs).inFile = false ∧ (office_cleanup fs).outDir = none := by
  rcases fs with ⟨inF, outD⟩
  cases inF <;> cases outD <;> simp [office_cleanup]

theorem applyOps_append (st : State) (a b : List FsOp) :
    applyOps st (a ++ b) = applyOps (applyOps st a) b := by
  unfold applyOps
  exact List.foldl_append _ _ _ _

theorem fsWrite_mem (fs : List Blob) (n : String) (c : Bytes) :
    ∃ d, (n, d) ∈ fsWrite fs n c := by
  unfold fsWrite
  by_cases h : fs.any (fun p => p.1 = n) = true
  · rw [if_pos h]
    obtain ⟨p, hp, hpn⟩ := List.any_eq_true.mp h
    refine ⟨c, List.mem_map.mpr ⟨p, hp, ?_⟩⟩
    simp [of_decide_eq_true hpn]
  · rw [if_neg h]
    exact ⟨c, by simp⟩

theorem pyMaxBy_spec {α : Type} (key : α → Nat) (x : α) (xs : List α) :
    ∃ m, pyMaxBy key (x :: xs) = some m ∧ m ∈ x :: xs ∧
      ∀ y ∈ x :: xs, key y ≤ key m := by
  induction xs generalizing x with
  | nil =>
    refine ⟨x, rfl, List.mem_cons_self _ _, ?_⟩
    intro y hy
    rcases List.mem_cons.mp hy with h | h
    · exact h ▸ le_refl _
    · cases h
  | cons z zs ih =>
    obtain ⟨m, hm, hmem, hle⟩ := ih (if key x < key z then z else x)
    refine ⟨m, ?_, ?_, ?_⟩
    · simpa [pyMaxBy, List.foldl_cons] using hm
    · rcases List.mem_cons.mp hmem with h | h
      · by_cases hxz : key x < key z <;> simp [hxz] at h <;> simp [h]
      · exact List.mem_cons_of_mem _ (List.mem_cons_of_mem _ h)
    · have hhead : key (if key x < key z then z else x) ≤ key m :=
        hle _ (List.mem_cons_self _ _)
      have hx : key x ≤ key (if key x < key z then z else x) := by
        by_cases hxz : key x < key z
        · simpa [hxz] using le_of_lt hxz
        · simp [hxz]
      have hz : key z ≤ key (if key x < key z then z else x) := by
        by_cases hxz : key x < key z
        · simp [hxz]
        · simpa [hxz] using le_of_not_lt hxz
      intro y hy
      rcases List.mem_cons.mp hy with h | h
      · exact h ▸ le_trans hx hhead
      · rcases List.mem_cons.mp h with h2 | h2
        · exact h2 ▸ le_trans hz hhead
        · exact hle _ (List.mem_cons_of_mem _ h2)

/-! ## Claim theorems -/

/-- C2: for every call to the Office Converter, on every exit path —
success, timeout, non-zero process exit, or missing output — the
temporary input file and the temporary output directory with its contents
are removed before the function returns or raises. -/
theorem office_temp_cleanup (E : PdfEngine) (env : OfficeEnv)
    (fb : Bytes) (ext : String) :
    (office_first_page_to_png E env fb ext).2.inFile = false ∧
    (office_first_page_to_png E env fb ext).2.outDir = none := by
  obtain ⟨base, outcome⟩ := env
  unfold office_first_page_to_png
  cases outcome with
  | timeout => exact office_cleanup_clears _
  | exitError s => exact office_cleanup_clears _
  | success s outs =>
    dsimp only
    rcases h : outs.find?
        (fun f => f.name = office_guessed_name ⟨base, .success s outs⟩) with _ | f
    · rcases h2 : pyMaxBy (fun f => f.mtime) (office_pdf_candidates outs) with _ | f
      · simp only [h, h2]
        exact office_cleanup_clears _
      · simp only [h, h2]
        exact office_cleanup_clears _
    · simp only [h]
      exact office_cleanup_clears _

/-- C3: after the external process exits successfully, the Office
Converter uses the expected PDF path (input base name plus ".pdf") when
it exists; otherwise it renders the most recently modified ".pdf" file of
the output directory; and when no ".pdf" file exists it fails with the
500 ConversionProducedNoOutput error carrying the process stderr. -/
theorem office_pdf_location (E : PdfEngine) (env : OfficeEnv)
    (fb : Bytes) (ext : String) (stderr : String) (outputs : List OutFile)
    (hout : env.outcome = .success stderr outputs) :
    (∀ f, outputs.find? (fun g => g.name = office_guessed_name env) = some f →
       (office_first_page_to_png E env fb ext).1 =
         pdf_first_page_to_png E f.content) ∧
    (outputs.find? (fun g => g.name = office_guessed_name env) = none →
     office_pdf_candidates outputs ≠ [] →
       ∃ f ∈ office_pdf_candidates outputs,
         (∀ g ∈ office_pdf_candidates outputs, g.mtime ≤ f.mtime) ∧
         (office_first_page_to_png E env fb ext).1 =
           pdf_first_page_to_png E f.content) ∧
    (outputs.find? (fun g => g.name = office_guessed_name env) = none →
     office_pdf_candidates outputs = [] →
       (office_first_page_to_png E env fb ext).1 =
         .error ⟨500, .noPdfOutput stderr⟩) := by
  obtain ⟨base, outcome⟩ := env
  dsimp only at hout
  subst hout
  refine ⟨fun f hf => ?_, fun hnone hcand => ?_, fun hnone hcand => ?_⟩
  · simp [office_first_page_to_png, hf]
  · obtain ⟨c, cs, hcs⟩ := List.exists_cons_of_ne_nil hcand
    obtain ⟨m, hm, hmem, hle⟩ := pyMaxBy_spec (fun f => f.mtime) c cs
    rw [hcs]
    refine ⟨m, hmem, hle, ?_⟩
    have hm2 : pyMaxBy (fun f => f.mtime) (office_pdf_candidates outputs)
        = some m := by rw [hcs]; exact hm
    simp [office_first_page_to_png, hnone, hm2]
  · simp [office_first_page_to_png, hnone, hcand, pyMaxBy]

/-- Witness for C3: the expected path wins when present, and an output
directory with no PDF yields the 500 no-output error. -/
theorem office_pdf_location_witness :
    ((office_first_page_to_png pdfEngine0 officeEnv1 [] ".docx").1 =
       pdf_first_page_to_png pdfEngine0 [1]) ∧
    ((office_first_page_to_png pdfEngine0 officeEnv2 [] ".docx").1 =
       .error ⟨500, .noPdfOutput "e2"⟩) :=
  ⟨(office_pdf_location pdfEngine0 officeEnv1 [] ".docx" "e1"
      [⟨"tmpQ.pdf", 0, [1]⟩, ⟨"z.pdf", 7, [2]⟩] rfl).1
      ⟨"tmpQ.pdf", 0, [1]⟩ (by decide),
   (office_pdf_location pdfEngine0 officeEnv2 [] ".docx" "e2"
      [⟨"notes.txt", 3, [9]⟩] rfl).2.2 (by decide) (by decide)⟩

/-- C4: the Format Router classifies by filename suffix
case-insensitively, checking in order .pdf, .docx, .doc, .pptx, .ppt,
dispatching .pdf to the Renderer and each Office suffix to the Office
Converter with that exact extension; any other suffix fails with the 400
UnsupportedFormat error whose payload carries the full supported-format
list. -/
theorem router_dispatch (E : PdfEngine) (env : OfficeEnv) (fb : Bytes)
    (filename : String) :
    (strEndsWith (strLower filename) ".pdf" = true →
       generate_thumbnail_png_bytes E env fb filename =
         pdf_first_page_to_png E fb) ∧
    (strEndsWith (strLower filename) ".pdf" = false →
     strEndsWith (strLower filename) ".docx" = true →
       generate_thumbnail_png_bytes E env fb filename =
         (office_first_page_to_png E env fb ".docx").1) ∧
    (strEndsWith (strLower filename) ".pdf" = false →
     strEndsWith (strLower filename) ".docx" = false →
     strEndsWith (strLower filename) ".doc" = true →
       generate_thumbnail_png_bytes E env fb filename =
         (office_first_page_to_png E env fb ".doc").1) ∧
    (strEndsWith (strLower filename) ".pdf" = false →
     strEndsWith (strLower filename) ".docx" = false →
     strEndsWith (strLower filename) ".doc" = false →
     strEndsWith (strLower filename) ".pptx" = true →
       generate_thumbnail_png_bytes E env fb filename =
         (office_first_page_to_png E env fb ".pptx").1) ∧
    (strEndsWith (strLower filename) ".pdf" = false →
     strEndsWith (strLower filename) ".docx" = false →
     strEndsWith (strLower filename) ".doc" = false →
     strEndsWith (strLower filename) ".pptx" = false →
     strEndsWith (strLower filename) ".ppt" = true →
       generate_thumbnail_png_bytes E env fb filename =
         (office_first_page_to_png E env fb ".ppt").1) ∧
    (strEndsWith (strLower filename) ".pdf" = false →
     strEndsWith (strLower filename) ".docx" = false →
     strEndsWith (strLower filename) ".doc" = false →
     strEndsWith (strLower filename) ".pptx" = false →
     strEndsWith (strLower filename) ".ppt" = false →
       generate_thumbnail_png_bytes E env fb filename =
         .error ⟨400, .unsupported filename supported_formats⟩) := by
  refine ⟨fun h1 => ?_, fun h1 h2 => ?_, fun h1 h2 h3 => ?_,
    fun h1 h2 h3 h4 => ?_, fun h1 h2 h3 h4 h5 => ?_, fun h1 h2 h3 h4 h5 => ?_⟩
  · simp [generate_thumbnail_png_bytes, h1]
  · simp [generate_thumbnail_png_bytes, h1, h2]
  · simp [generate_thumbnail_png_bytes, h1, h2, h3]
  · simp [generate_thumbnail_png_bytes, h1, h2, h3, h4]
  · simp [generate_thumbnail_png_bytes, h1, h2, h3, h4, h5]
  · simp [generate_thumbnail_png_bytes, h1, h2, h3, h4, h5]

/-- Witness for C4: one concrete filename per routing case, with mixed
upper and lower case for the supported suffixes. -/
theorem router_dispatch_witness :
    (generate_thumbnail_png_bytes pdfEngine0 officeEnv1 [1] "a.PdF" =
       pdf_first_page_to_png pdfEngine0 [1]) ∧
    (generate_thumbnail_png_bytes pdfEngine0 officeEnv1 [1] "a.DOCX" =
       (office_first_page_to_png pdfEngine0 officeEnv1 [1] ".docx").1) ∧
    (generate_thumbnail_png_bytes pdfEngine0 officeEnv1 [1] "a.doc" =
       (office_first_page_to_png pdfEngine0 officeEnv1 [1] ".doc").1) ∧
    (generate_thumbnail_png_bytes pdfEngine0 officeEnv1 [1] "a.PPTX" =
       (office_first_page_to_png pdfEngine0 officeEnv1 [1] ".pptx").1) ∧
    (generate_thumbnail_png_bytes pdfEngine0 officeEnv1 [1] "a.ppt" =
       (office_first_page_to_png pdfEngine0 officeEnv1 [1] ".ppt").1) ∧
    (generate_thumbnail_png_bytes pdfEngine0 officeEnv1 [1] "a.txt" =
       .error ⟨400, .unsupported "a.txt" supported_formats⟩) :=
  ⟨(router_dispatch pdfEngine0 officeEnv1 [1] "a.PdF").1 (by decide),
   (router_dispatch pdfEngine0 officeEnv1 [1] "a.DOCX").2.1
     (by decide) (by decide),
   (router_dispatch pdfEngine0 officeEnv1 [1] "a.doc").2.2.1
     (by decide) (by decide) (by decide),
   (router_dispatch pdfEngine0 officeEnv1 [1] "a.PPTX").2.2.2.1
     (by decide) (by decide) (by decide) (by decide),
   (router_dispatch pdfEngine0 officeEnv1 [1] "a.ppt").2.2.2.2.1
     (by decide) (by decide) (by decide) (by decide) (by decide),
   (router_dispatch pdfEngine0 officeEnv1 [1] "a.txt").2.2.2.2.2
     (by decide) (by decide) (by decide) (by decide) (by decide)⟩

/-- C5: the Renderer fails with InvalidDocument when the bytes cannot be
parsed as a PDF, fails with EmptyDocument when the parsed document has
zero pages, and otherwise renders page index 0 at the fixed 2x linear
scale factor and returns the PNG encoding. -/
theorem renderer_first_page (E : PdfEngine) (b : Bytes) :
    (E.parse b = none →
       pdf_first_page_to_png E b = .error ⟨400, .invalidPdf⟩) ∧
    (∀ doc, E.parse b = some doc → doc.pages = [] →
       pdf_first_page_to_png E b = .error ⟨400, .zeroPages⟩) ∧
    (∀ doc page rest, E.parse b = some doc → doc.pages = page :: rest →
       pdf_first_page_to_png E b = .ok (E.renderPng page 2 2)) := by
  refine ⟨fun h => ?_, fun doc h hp => ?_, fun doc page rest h hp => ?_⟩
  · simp [pdf_first_page_to_png, h]
  · simp [pdf_first_page_to_png, h, hp]
  · simp [pdf_first_page_to_png, h, hp]

/-- Witness for C5 on a concrete engine: an unparsable input, a zero-page
document, and a two-page document. -/
theorem renderer_first_page_witness :
    (pdf_first_page_to_png pdfEngine0 [3] = .error ⟨400, .invalidPdf⟩) ∧
    (pdf_first_page_to_png pdfEngine0 [2] = .error ⟨400, .zeroPages⟩) ∧
    (pdf_first_page_to_png pdfEngine0 [1] =
       .ok (pdfEngine0.renderPng [7] 2 2)) :=
  ⟨(renderer_first_page pdfEngine0 [3]).1 (by decide),
   (renderer_first_page pdfEngine0 [2]).2.1 ⟨[]⟩ (by decide) rfl,
   (renderer_first_page pdfEngine0 [1]).2.2 ⟨[[7], [8]]⟩ [7] [[8]] (by decide) rfl⟩

theorem upload_document_gen_error_eq (st : State) (content : Bytes)
    (filename : String) (replace_existing : Bool) (doc_id : String)
    (uploaded_at : String) (maxFileSize : Nat)
    (gen : Bytes → String → Except HTTPException Bytes)
    (dup : Option (String × Record)) (e : HTTPException)
    (hchecks : upload_checks st content filename replace_existing maxFileSize
      = .ok dup)
    (hgen : gen content filename = .error e) :
    upload_document st content filename replace_existing doc_id uploaded_at
        maxFileSize gen =
      ((match dup with
        | some (eid, einfo) =>
          if replace_existing then
            [FsOp.unlinkDoc (eid ++ einfo.extension),
             FsOp.unlinkThumb (eid ++ ".png"),
             FsOp.metaRemove eid]
          else []
        | none => []) ++
         [FsOp.writeDoc (doc_id ++ (splitext filename).2) content,
          FsOp.unlinkDoc (doc_id ++ (splitext filename).2)],
       .error e) := by
  cases dup with
  | none =>
    conv_lhs => rw [upload_document, hchecks]
    dsimp only
    conv_lhs => rw [hgen]
  | some p =>
    obtain ⟨eid, einfo⟩ := p
    conv_lhs => rw [upload_document, hchecks]
    dsimp only
    conv_lhs => rw [hgen]

/-- C1: for every upload that passed the validation checks (so its bytes
were written to storage), if thumbnail generation fails then the handler
deletes the just-written original blob and re-raises the same exception:
the result is that failure unchanged and the final state retains no
document named `doc_id ++ ext`. -/
theorem upload_rollback (st : State) (content : Bytes) (filename : String)
    (replace_existing : Bool) (doc_id : String) (uploaded_at : String)
    (maxFileSize : Nat) (gen : Bytes → String → Except HTTPException Bytes)
    (dup : Option (String × Record)) (e : HTTPException)
    (hchecks : upload_checks st content filename replace_existing maxFileSize
      = .ok dup)
    (hgen : gen content filename = .error e) :
    (upload_document st content filename replace_existing doc_id uploaded_at
        maxFileSize gen).2 = .error e ∧
    (applyOps st (upload_document st content filename replace_existing doc_id
        uploaded_at maxFileSize gen).1).documents.all
      (fun p => p.1 ≠ doc_id ++ (splitext filename).2) = true := by
  rw [upload_document_gen_error_eq st content filename replace_existing doc_id
    uploaded_at maxFileSize gen dup e hchecks hgen]
  refine ⟨rfl, ?_⟩
  rw [List.all_eq_true]
  intro p hp
  rw [show ∀ (A : List FsOp) (w u : FsOp), A ++ [w, u] = (A ++ [w]) ++ [u]
    from fun A w u => by simp] at hp
  rw [applyOps_append] at hp
  have hp2 := (List.mem_filter.mp hp).2
  simpa using hp2

/-- Witness for C1: an upload whose content is not a parsable PDF, on the
empty state. -/
theorem upload_rollback_witness :
    ((upload_document ⟨[], [], []⟩ [3] "b.pdf" false "d9" "t" 100
        (generate_thumbnail_png_bytes pdfEngine0 officeEnv1)).2 =
      .error ⟨400, .invalidPdf⟩) ∧
    (applyOps ⟨[], [], []⟩ (upload_document ⟨[], [], []⟩ [3] "b.pdf" false "d9"
        "t" 100 (generate_thumbnail_png_bytes pdfEngine0 officeEnv1)).1).documents.all
      (fun p => p.1 ≠ "d9" ++ (splitext "b.pdf").2) = true :=
  upload_rollback ⟨[], [], []⟩ [3] "b.pdf" false "d9" "t" 100
    (generate_thumbnail_png_bytes pdfEngine0 officeEnv1) none
    ⟨400, .invalidPdf⟩ (by decide) (by decide)

/-- C6: the duplicate-filename check runs before the size check: a
non-empty upload whose filename matches an existing record, with
`replace_existing` false, is answered with the 409 DuplicateFilename
error even when it exceeds the maximum size, while the 413 TooLarge
rejection is what an oversized upload gets once the duplicate lookup
comes back empty. -/
theorem upload_duplicate_before_size (st : State) (content : Bytes)
    (filename : String) (replace_existing : Bool) (doc_id : String)
    (uploaded_at : String) (maxFileSize : Nat)
    (gen : Bytes → String → Except HTTPException Bytes)
    (hne : content ≠ []) (hbig : content.length > maxFileSize) :
    (∀ eid einfo,
       check_duplicate_filename st.metadata filename = some (eid, einfo) →
         upload_document st content filename false doc_id uploaded_at
             maxFileSize gen =
           ([], .error ⟨409, .duplicateFilename filename eid
             einfo.uploaded_at⟩)) ∧
    (check_duplicate_filename st.metadata filename = none →
       upload_document st content filename replace_existing doc_id uploaded_at
           maxFileSize gen =
         ([], .error ⟨413, .tooLarge⟩)) := by
  obtain ⟨c, cs, rfl⟩ := List.exists_cons_of_ne_nil hne
  have hbig2 : maxFileSize < cs.length + 1 := by simpa using hbig
  constructor
  · intro eid einfo hdup
    simp [upload_document, upload_checks, hdup]
  · intro hdup
    simp [upload_document, upload_checks, hdup, hbig2]

/-- Witness for C6: a 2-byte upload against a 1-byte size limit reports
the duplicate on `stateOne` and TooLarge on the empty state. -/
theorem upload_duplicate_before_size_witness :
    (upload_document stateOne [5, 5] "a.pdf" false "d9" "t" 1
        (generate_thumbnail_png_bytes pdfEngine0 officeEnv1) =
      ([], .error ⟨409, .duplicateFilename "a.pdf" "d1" "t1"⟩)) ∧
    (upload_document ⟨[], [], []⟩ [5, 5] "a.pdf" false "d9" "t" 1
        (generate_thumbnail_png_bytes pdfEngine0 officeEnv1) =
      ([], .error ⟨413, .tooLarge⟩)) :=
  ⟨(upload_duplicate_before_size stateOne [5, 5] "a.pdf" false "d9" "t" 1
      (generate_thumbnail_png_bytes pdfEngine0 officeEnv1)
      (by decide) (by decide)).1 "d1" ⟨"a.pdf", ".pdf", "t1"⟩ (by decide),
   (upload_duplicate_before_size ⟨[], [], []⟩ [5, 5] "a.pdf" false "d9" "t" 1
      (generate_thumbnail_png_bytes pdfEngine0 officeEnv1)
      (by decide) (by decide)).2 (by decide)⟩

/-- C9: an oversized upload whose filename matches an existing record,
with `replace_existing` true, is rejected with TooLarge before any
replacement deletion: the trace is empty and the state is unchanged. -/
theorem upload_toolarge_before_replace (st : State) (content : Bytes)
    (filename : String) (doc_id : String) (uploaded_at : String)
    (maxFileSize : Nat) (gen : Bytes → String → Except HTTPException Bytes)
    (eid : String) (einfo : Record)
    (hne : content ≠ [])
    (hdup : check_duplicate_filename st.metadata filename = some (eid, einfo))
    (hbig : content.length > maxFileSize) :
    upload_document st content filename true doc_id uploaded_at maxFileSize gen
      = ([], .error ⟨413, .tooLarge⟩) ∧
    applyOps st (upload_document st content filename true doc_id uploaded_at
      maxFileSize gen).1 = st := by
  obtain ⟨c, cs, rfl⟩ := List.exists_cons_of_ne_nil hne
  have hbig2 : maxFileSize < cs.length + 1 := by simpa using hbig
  have h : upload_document st (c :: cs) filename true doc_id uploaded_at
      maxFileSize gen = ([], .error ⟨413, .tooLarge⟩) := by
    simp [upload_document, upload_checks, hdup, hbig2]
  exact ⟨h, by rw [h]; rfl⟩

/-- Witness for C9: an oversized replacement upload against `stateOne`
leaves it untouched. -/
theorem upload_toolarge_before_replace_witness :
    (upload_document stateOne [5, 5] "a.pdf" true "d9" "t" 1
        (generate_thumbnail_png_bytes pdfEngine0 officeEnv1) =
      ([], .error ⟨413, .tooLarge⟩)) ∧
    applyOps stateOne (upload_document stateOne [5, 5] "a.pdf" true "d9" "t" 1
      (generate_thumbnail_png_bytes pdfEngine0 officeEnv1)).1 = stateOne :=
  upload_toolarge_before_replace stateOne [5, 5] "a.pdf" "d9" "t" 1
    (generate_thumbnail_png_bytes pdfEngine0 officeEnv1) "d1"
    ⟨"a.pdf", ".pdf", "t1"⟩ (by decide) (by decide) (by decide)

theorem mem_applyOps_unlinkDocs (names : List String) (st : State) (p : Blob) :
    p ∈ (applyOps st (names.map FsOp.unlinkDoc)).documents ↔
      p ∈ st.documents ∧ p.1 ∉ names := by
  induction names generalizing st with
  | nil => simp [applyOps]
  | cons n ns ih =>
    rw [List.map_cons,
      show applyOps st (FsOp.unlinkDoc n :: ns.map FsOp.unlinkDoc) =
        applyOps (applyOp st (FsOp.unlinkDoc n)) (ns.map FsOp.unlinkDoc)
        from rfl, ih]
    simp only [applyOp, List.mem_filter, List.mem_cons, decide_not,
      Bool.not_eq_true', decide_eq_false_iff_not]
    tauto

theorem applyOps_unlinkDocs_thumbs (names : List String) (st : State) :
    (applyOps st (names.map FsOp.unlinkDoc)).thumbnails = st.thumbnails := by
  induction names generalizing st with
  | nil => rfl
  | cons n ns ih =>
    rw [List.map_cons,
      show applyOps st (FsOp.unlinkDoc n :: ns.map FsOp.unlinkDoc) =
        applyOps (applyOp st (FsOp.unlinkDoc n)) (ns.map FsOp.unlinkDoc)
        from rfl, ih]
    rfl

/-- C7: delete(id) fails with the 404 NotFound error when neither an
original blob (a document whose name starts with `id`) nor the thumbnail
`id ++ ".png"` is present; and whenever at least one blob was present —
whichever combination it was — the call succeeds and the metadata record
for `id` is removed. -/
theorem delete_notfound_and_meta (st : State) (doc_id : String) :
    ((st.documents.all (fun p => !(strStartsWith p.1 doc_id)) = true ∧
      st.thumbnails.all (fun p => p.1 ≠ doc_id ++ ".png") = true) →
       delete_document st doc_id = ([], .error ⟨404, .notFound⟩)) ∧
    ((st.documents.any (fun p => strStartsWith p.1 doc_id) = true ∨
      st.thumbnails.any (fun p => p.1 = doc_id ++ ".png") = true) →
       exceptIsOk (delete_document st doc_id).2 = true ∧
       (applyOps st (delete_document st doc_id).1).metadata.all
         (fun r => r.1 ≠ doc_id) = true) := by
  have hmeta : ∀ x : State,
      (applyOp x (FsOp.metaRemove doc_id)).metadata.all
        (fun r => r.1 ≠ doc_id) = true := by
    intro x
    rw [List.all_eq_true]
    intro r hr
    have h2 := (List.mem_filter.mp hr).2
    simpa using h2
  constructor
  · rintro ⟨h1, h2⟩
    have hfil : st.documents.filter (fun p => strStartsWith p.1 doc_id)
        = [] := by
      rw [List.filter_eq_nil_iff]
      intro a ha
      have := List.all_eq_true.mp h1 a ha
      simpa using this
    have hth : st.thumbnails.any (fun p => p.1 = doc_id ++ ".png")
        = false := by
      cases hh : st.thumbnails.any (fun p => p.1 = doc_id ++ ".png") with
      | false => rfl
      | true =>
        obtain ⟨a, ha, hpa⟩ := List.any_eq_true.mp hh
        have := List.all_eq_true.mp h2 a ha
        simp at this hpa
        exact absurd hpa this
    simp [delete_document, hfil, hth]
  · intro h
    cases hth : st.thumbnails.any (fun p => p.1 = doc_id ++ ".png") with
    | true =>
      have hD : delete_document st doc_id =
          (((st.documents.filter (fun p => strStartsWith p.1 doc_id)).map
              (fun p => p.1)).map FsOp.unlinkDoc ++
             [FsOp.unlinkThumb (doc_id ++ ".png")] ++
             [FsOp.metaRemove doc_id],
           .ok ((st.documents.filter (fun p => strStartsWith p.1 doc_id)).map
              (fun p => p.1) ++ [doc_id ++ ".png"])) := by
        simp [delete_document, hth]
      rw [hD]
      refine ⟨rfl, ?_⟩
      rw [applyOps_append]
      exact hmeta _
    | false =>
      have hdocs : st.documents.any (fun p => strStartsWith p.1 doc_id)
          = true := by
        rcases h with h | h
        · exact h
        · rw [hth] at h
          cases h
      obtain ⟨a, ha, hpa⟩ := List.any_eq_true.mp hdocs
      have hne : (st.documents.filter
          (fun p => strStartsWith p.1 doc_id)).map (fun p => p.1) ≠ [] := by
        have : a ∈ st.documents.filter (fun p => strStartsWith p.1 doc_id) :=
          List.mem_filter.mpr ⟨ha, hpa⟩
        exact List.ne_nil_of_mem (List.mem_map_of_mem _ this)
      have hD : delete_document st doc_id =
          (((st.documents.filter (fun p => strStartsWith p.1 doc_id)).map
              (fun p => p.1)).map FsOp.unlinkDoc ++ [] ++
             [FsOp.metaRemove doc_id],
           .ok ((st.documents.filter (fun p => strStartsWith p.1 doc_id)).map
              (fun p => p.1) ++ [])) := by
        simp [delete_document, hth, hne]
      rw [hD]
      refine ⟨rfl, ?_⟩
      rw [applyOps_append]
      exact hmeta _

/-- Witness for C7: NotFound on a state with unrelated blobs, and a
successful metadata-clearing delete on `stateOne`. -/
theorem delete_notfound_and_meta_witness :
    (delete_document stateOne "zz" = ([], .error ⟨404, .notFound⟩)) ∧
    (exceptIsOk (delete_document stateOne "d1").2 = true ∧
     (applyOps stateOne (delete_document stateOne "d1").1).metadata.all
       (fun r => r.1 ≠ "d1") = true) :=
  ⟨(delete_notfound_and_meta stateOne "zz").1 ⟨by decide, by decide⟩,
   (delete_notfound_and_meta stateOne "d1").2 (Or.inl (by decide))⟩

/-- C8: for every id whose blobs exist, deleting twice yields one success
followed by one 404 NotFound failure. -/
theorem delete_idempotent (st : State) (doc_id : String)
    (hdoc : st.documents.any (fun p => strStartsWith p.1 doc_id) = true)
    (hthumb : st.thumbnails.any (fun p => p.1 = doc_id ++ ".png") = true) :
    exceptIsOk (delete_document st doc_id).2 = true ∧
    (delete_document (applyOps st (delete_document st doc_id).1) doc_id).2 =
      .error ⟨404, .notFound⟩ := by
  have hD : delete_document st doc_id =
      (((st.documents.filter (fun p => strStartsWith p.1 doc_id)).map
          (fun p => p.1)).map FsOp.unlinkDoc ++
         [FsOp.unlinkThumb (doc_id ++ ".png")] ++
         [FsOp.metaRemove doc_id],
       .ok ((st.documents.filter (fun p => strStartsWith p.1 doc_id)).map
          (fun p => p.1) ++ [doc_id ++ ".png"])) := by
    simp [delete_document, hthumb]
  refine ⟨by rw [hD]; rfl, ?_⟩
  rw [hD]
  set hits := (st.documents.filter (fun p => strStartsWith p.1 doc_id)).map
    (fun p => p.1) with hhits
  set st2 := applyOps st
    (hits.map FsOp.unlinkDoc ++ [FsOp.unlinkThumb (doc_id ++ ".png")] ++
     [FsOp.metaRemove doc_id]) with hst2
  have hdocs2 : st2.documents =
      (applyOps st (hits.map FsOp.unlinkDoc)).documents := by
    rw [hst2, applyOps_append, applyOps_append]
    rfl
  have hthumbs2 : st2.thumbnails =
      st.thumbnails.filter (fun p => p.1 ≠ doc_id ++ ".png") := by
    rw [hst2, applyOps_append, applyOps_append]
    show ((applyOps st (hits.map FsOp.unlinkDoc)).thumbnails.filter
      (fun p => p.1 ≠ doc_id ++ ".png")) = _
    rw [applyOps_unlinkDocs_thumbs]
  have hfil2 : st2.documents.filter (fun p => strStartsWith p.1 doc_id)
      = [] := by
    rw [List.filter_eq_nil_iff]
    intro p hp
    rw [hdocs2] at hp
    obtain ⟨hmem, hnin⟩ := (mem_applyOps_unlinkDocs hits st p).mp hp
    intro hpred
    exact hnin (List.mem_map_of_mem _ (List.mem_filter.mpr ⟨hmem, hpred⟩))
  have hany2 : st2.thumbnails.any (fun p => p.1 = doc_id ++ ".png")
      = false := by
    cases hh : st2.thumbnails.any (fun p => p.1 = doc_id ++ ".png") with
    | false => rfl
    | true =>
      obtain ⟨a, ha, hpa⟩ := List.any_eq_true.mp hh
      rw [hthumbs2] at ha
      have h2 := (List.mem_filter.mp ha).2
      simp at h2 hpa
      exact absurd hpa h2
  simp [delete_document, hfil2, hany2]

/-- Witness for C8: both blobs of id "d1" exist in `stateOne`. -/
theorem delete_idempotent_witness :
    exceptIsOk (delete_document stateOne "d1").2 = true ∧
    (delete_document (applyOps stateOne (delete_document stateOne "d1").1)
        "d1").2 = .error ⟨404, .notFound⟩ :=
  delete_idempotent stateOne "d1" (by decide) (by decide)

theorem no_metaAdd_decomp (m : FsOp) :
    ∀ (A : List FsOp), (∀ a ∈ A, isMetaAdd a = false) →
    ∀ pre x rest, isMetaAdd x = true → A ++ [m] = pre ++ x :: rest →
      pre = A ∧ x = m ∧ rest = [] := by
  intro A
  induction A with
  | nil =>
    intro hA pre x rest hx heq
    cases pre with
    | nil =>
      rw [List.nil_append, List.nil_append] at heq
      injection heq with h1 h2
      exact ⟨rfl, h1.symm, h2.symm⟩
    | cons p ps =>
      rw [List.nil_append, List.cons_append] at heq
      injection heq with h1 h2
      exact absurd h2.symm (by simp)
  | cons a as ih =>
    intro hA pre x rest hx heq
    cases pre with
    | nil =>
      rw [List.cons_append, List.nil_append] at heq
      injection heq with h1 h2
      rw [← h1] at hx
      rw [hA a (List.mem_cons_self a as)] at hx
      cases hx
    | cons p ps =>
      rw [List.cons_append, List.cons_append] at heq
      injection heq with h1 h2
      obtain ⟨hps, hxm, hr⟩ :=
        ih (fun b hb => hA b (List.mem_cons_of_mem _ hb)) ps x rest hx h2
      refine ⟨?_, hxm, hr⟩
      rw [hps, ← h1]

theorem upload_document_gen_ok_eq (st : State) (content : Bytes)
    (filename : String) (replace_existing : Bool) (doc_id : String)
    (uploaded_at : String) (maxFileSize : Nat)
    (gen : Bytes → String → Except HTTPException Bytes)
    (dup : Option (String × Record)) (png : Bytes)
    (hchecks : upload_checks st content filename replace_existing maxFileSize
      = .ok dup)
    (hgen : gen content filename = .ok png) :
    upload_document st content filename replace_existing doc_id uploaded_at
        maxFileSize gen =
      ((match dup with
        | some (eid, einfo) =>
          if replace_existing then
            [FsOp.unlinkDoc (eid ++ einfo.extension),
             FsOp.unlinkThumb (eid ++ ".png"),
             FsOp.metaRemove eid]
          else []
        | none => []) ++
         [FsOp.writeDoc (doc_id ++ (splitext filename).2) content,
          FsOp.writeThumb (doc_id ++ ".png") png,
          FsOp.metaAdd doc_id ⟨filename, (splitext filename).2, uploaded_at⟩],
       .ok ⟨doc_id, filename, uploaded_at,
            "/documents/" ++ (doc_id ++ (splitext filename).2),
            "/thumbnails/" ++ (doc_id ++ ".png"),
            match dup with
            | some _ => replace_existing
            | none => false⟩) := by
  cases dup with
  | none =>
    conv_lhs => rw [upload_document, hchecks]
    dsimp only
    conv_lhs => rw [hgen]
  | some p =>
    obtain ⟨eid, einfo⟩ := p
    conv_lhs => rw [upload_document, hchecks]
    dsimp only
    conv_lhs => rw [hgen]

theorem trace_decomp (R : List FsOp) (hR : ∀ a ∈ R, isMetaAdd a = false)
    (w t : FsOp) (hw : isMetaAdd w = false) (ht : isMetaAdd t = false)
    (idm : String) (rm : Record) (pre rest : List FsOp) (id : String)
    (r : Record)
    (heq : R ++ [w, t, FsOp.metaAdd idm rm] = pre ++ FsOp.metaAdd id r :: rest) :
    pre = R ++ [w, t] ∧ id = idm ∧ r = rm ∧ rest = [] := by
  have hA : ∀ a ∈ R ++ [w, t], isMetaAdd a = false := by
    intro a ha
    rcases List.mem_append.mp ha with h | h
    · exact hR a h
    · rcases List.mem_cons.mp h with rfl | h2
      · exact hw
      · rcases List.mem_cons.mp h2 with rfl | h3
        · exact ht
        · cases h3
  have heq2 : (R ++ [w, t]) ++ [FsOp.metaAdd idm rm] =
      pre ++ FsOp.metaAdd id r :: rest := by
    rw [List.append_assoc]
    exact heq
  obtain ⟨hpre, hx, hrest⟩ := no_metaAdd_decomp (FsOp.metaAdd idm rm)
    (R ++ [w, t]) hA pre (FsOp.metaAdd id r) rest rfl heq2
  injection hx with h1 h2
  exact ⟨hpre, h1, h2, hrest⟩

theorem blobs_after_writes (base : State) (docName thumbName : String)
    (content png : Bytes) (id2 : String) (r2 : Record) :
    (applyOps base ([FsOp.writeDoc docName content,
        FsOp.writeThumb thumbName png] ++ [FsOp.metaAdd id2 r2])).documents.any
      (fun p => p.1 = docName) = true ∧
    (applyOps base ([FsOp.writeDoc docName content,
        FsOp.writeThumb thumbName png] ++ [FsOp.metaAdd id2 r2])).thumbnails.any
      (fun p => p.1 = thumbName) = true := by
  constructor
  · obtain ⟨d, hd⟩ := fsWrite_mem base.documents docName content
    rw [List.any_eq_true]
    exact ⟨(docName, d), hd, by simp⟩
  · obtain ⟨d, hd⟩ := fsWrite_mem (applyOp base
      (FsOp.writeDoc docName content)).thumbnails thumbName png
    rw [List.any_eq_true]
    exact ⟨(thumbName, d), hd, by simp⟩

/-- C10: whenever the upload trace inserts a metadata record (the trace
splits as `pre ++ metaAdd id r :: rest`), the state reached just after
that insertion already holds both blobs of `id`: a document named
`id ++ r.extension` and a thumbnail named `id ++ ".png"`. -/
theorem metadata_after_both_blobs (st : State) (content : Bytes)
    (filename : String) (replace_existing : Bool) (doc_id : String)
    (uploaded_at : String) (maxFileSize : Nat)
    (gen : Bytes → String → Except HTTPException Bytes)
    (pre rest : List FsOp) (id : String) (r : Record)
    (hsplit : (upload_document st content filename replace_existing doc_id
        uploaded_at maxFileSize gen).1 = pre ++ FsOp.metaAdd id r :: rest) :
    (applyOps st (pre ++ [FsOp.metaAdd id r])).documents.any
      (fun p => p.1 = id ++ r.extension) = true ∧
    (applyOps st (pre ++ [FsOp.metaAdd id r])).thumbnails.any
      (fun p => p.1 = id ++ ".png") = true := by
  rcases hchecks : upload_checks st content filename replace_existing
      maxFileSize with e | dup
  · have htr : (upload_document st content filename replace_existing doc_id
        uploaded_at maxFileSize gen).1 = [] := by
      rw [show upload_document st content filename replace_existing doc_id
        uploaded_at maxFileSize gen = ([], .error e) by
          rw [upload_document, hchecks]]
    rw [htr] at hsplit
    exact absurd hsplit.symm (by simp)
  · rcases hgen : gen content filename with e2 | png
    · have hmem : FsOp.metaAdd id r ∈ (upload_document st content filename
          replace_existing doc_id uploaded_at maxFileSize gen).1 := by
        rw [hsplit]
        simp
      rcases dup with _ | ⟨eid, einfo⟩
      · rw [upload_document_gen_error_eq st content filename replace_existing
          doc_id uploaded_at maxFileSize gen none e2 hchecks hgen] at hmem
        simp at hmem
      · rw [upload_document_gen_error_eq st content filename replace_existing
          doc_id uploaded_at maxFileSize gen (some (eid, einfo)) e2 hchecks
          hgen] at hmem
        cases replace_existing
        · simp at hmem
        · simp at hmem
    · rcases dup with _ | ⟨eid, einfo⟩
      · rw [upload_document_gen_ok_eq st content filename replace_existing
          doc_id uploaded_at maxFileSize gen none png hchecks hgen] at hsplit
        obtain ⟨hpre, hid, hr, hrest⟩ := trace_decomp []
          (fun a ha => absurd ha (List.not_mem_nil a))
          (FsOp.writeDoc (doc_id ++ (splitext filename).2) content)
          (FsOp.writeThumb (doc_id ++ ".png") png) rfl rfl doc_id
          ⟨filename, (splitext filename).2, uploaded_at⟩ pre rest id r hsplit
        subst hid
        subst hr
        subst hrest
        subst hpre
        rw [List.append_assoc, applyOps_append]
        exact blobs_after_writes _ _ _ _ _ _ _
      · cases hrepl : replace_existing with
        | false =>
          rw [hrepl] at hchecks hsplit
          rw [upload_document_gen_ok_eq st content filename false
            doc_id uploaded_at maxFileSize gen (some (eid, einfo)) png hchecks
            hgen] at hsplit
          obtain ⟨hpre, hid, hr, hrest⟩ := trace_decomp []
            (fun a ha => absurd ha (List.not_mem_nil a))
            (FsOp.writeDoc (doc_id ++ (splitext filename).2) content)
            (FsOp.writeThumb (doc_id ++ ".png") png) rfl rfl doc_id
            ⟨filename, (splitext filename).2, uploaded_at⟩ pre rest id r hsplit
          subst hid
          subst hr
          subst hrest
          subst hpre
          rw [List.append_assoc, applyOps_append]
          exact blobs_after_writes _ _ _ _ _ _ _
        | true =>
          rw [hrepl] at hchecks hsplit
          rw [upload_document_gen_ok_eq st content filename true
            doc_id uploaded_at maxFileSize gen (some (eid, einfo)) png hchecks
            hgen] at hsplit
          obtain ⟨hpre, hid, hr, hrest⟩ := trace_decomp
            [FsOp.unlinkDoc (eid ++ einfo.extension),
             FsOp.unlinkThumb (eid ++ ".png"), FsOp.metaRemove eid]
            (by intro a ha
                rcases List.mem_cons.mp ha with rfl | ha2
                · rfl
                · rcases List.mem_cons.mp ha2 with rfl | ha3
                  · rfl
                  · rcases List.mem_cons.mp ha3 with rfl | ha4
                    · rfl
                    · cases ha4)
            (FsOp.writeDoc (doc_id ++ (splitext filename).2) content)
            (FsOp.writeThumb (doc_id ++ ".png") png) rfl rfl doc_id
            ⟨filename, (splitext filename).2, uploaded_at⟩ pre rest id r hsplit
          subst hid
          subst hr
          subst hrest
          subst hpre
          rw [List.append_assoc, applyOps_append]
          exact blobs_after_writes _ _ _ _ _ _ _

/-- Witness for C10: a concrete successful upload on the empty state,
whose trace is the two blob writes followed by the metadata insertion. -/
theorem metadata_after_both_blobs_witness :
    (applyOps ⟨[], [], []⟩ ([FsOp.writeDoc "d2.pdf" [1],
        FsOp.writeThumb "d2.png" [7, 2, 2]] ++
        [FsOp.metaAdd "d2" ⟨"b.pdf", ".pdf", "t2"⟩])).documents.any
      (fun p => p.1 = "d2" ++ ".pdf") = true ∧
    (applyOps ⟨[], [], []⟩ ([FsOp.writeDoc "d2.pdf" [1],
        FsOp.writeThumb "d2.png" [7, 2, 2]] ++
        [FsOp.metaAdd "d2" ⟨"b.pdf", ".pdf", "t2"⟩])).thumbnails.any
      (fun p => p.1 = "d2" ++ ".png") = true :=
  metadata_after_both_blobs ⟨[], [], []⟩ [1] "b.pdf" false "d2" "t2" 100
    (generate_thumbnail_png_bytes pdfEngine0 officeEnv1)
    [FsOp.writeDoc "d2.pdf" [1], FsOp.writeThumb "d2.png" [7, 2, 2]] []
    "d2" ⟨"b.pdf", ".pdf", "t2"⟩ (by decide)

end DocThumb
